import Mathlib

/-!
Verification of the VetAssist WhatsApp conversation engine, embedded from the
pseudocode of docs/WHATSAPP_AUTOMATION_ARCHITECTURE.md.  Times are integers
(minutes on an absolute timeline), python dicts are association lists, the
transactional store is an explicit DB record threaded through the operations,
and fresh uuids and the current time are passed in as parameters.
-/

namespace VetAssist

/-- Lower-casing of one character as python str.lower does on the alphabet the
keyword lists use: ASCII letters plus the Spanish accented vowels and enye. -/
def pyCharLower (c : Char) : Char :=
  if c = 'Á' then 'á'
  else if c = 'É' then 'é'
  else if c = 'Í' then 'í'
  else if c = 'Ó' then 'ó'
  else if c = 'Ú' then 'ú'
  else if c = 'Ü' then 'ü'
  else if c = 'Ñ' then 'ñ'
  else c.toLower

/-- Embedding of python str.lower. -/
def pyLower (s : String) : String := ⟨s.toList.map pyCharLower⟩

/-- Occurrence of a needle as a contiguous run of a character list: test at
every suffix of the haystack. -/
def infixSearch (needle : List Char) : List Char → Bool
  | [] => needle.isEmpty
  | c :: rest => needle.isPrefixOf (c :: rest) || infixSearch needle rest

/-- Embedding of the python substring test needle in hay. -/
def strContains (hay needle : String) : Bool :=
  infixSearch needle.toList hay.toList

/-- Embedding of python str.strip: drop leading and trailing whitespace. -/
def pyStrip (s : String) : String :=
  ⟨(((s.toList.dropWhile Char.isWhitespace).reverse.dropWhile
      Char.isWhitespace).reverse)⟩

/-- A candidate appointment window.  The field stop embeds the source field
named end, a reserved word in Lean. -/
structure TimeSlot where
  start : Int
  stop : Int
deriving DecidableEq, Repr

/-! ## Emergency detection (architecture doc section 5.1) -/

/-- The high list of EMERGENCY_KEYWORDS. -/
def EMERGENCY_KEYWORDS_high : List String :=
  ["veneno", "envenenado", "envenenamiento",
   "atropellado", "atropelló", "carro",
   "no respira", "no puede respirar", "asfixia",
   "convulsión", "convulsionando", "convulsiones",
   "sangre", "sangrando", "hemorragia",
   "no se mueve", "inconsciente", "desmayado",
   "parto", "dando a luz", "no puede parir"]

/-- The medium list of EMERGENCY_KEYWORDS. -/
def EMERGENCY_KEYWORDS_medium : List String :=
  ["urgente", "emergencia", "ayuda",
   "muy mal", "grave", "crítico",
   "vomitando sangre", "diarrea con sangre",
   "hinchado", "inflamado"]

/-- Result record of detect_emergency.  The bare final return of the source,
EmergencyDetection(is_potential_emergency=False), leaves the other fields at
their defaults: no confidence, no matches, no confirmation required. -/
structure EmergencyDetection where
  is_potential_emergency : Bool
  confidence : Option String
  matched_keywords : List String
  requires_confirmation : Bool
deriving DecidableEq, Repr

/-- Embedding of detect_emergency.  The source tests the high branch first;
here the empty test is on the high matches, with the branches swapped, which
is the same dispatch. -/
def detect_emergency (message : String) : EmergencyDetection :=
  let message_lower := pyLower message
  let high_matches := EMERGENCY_KEYWORDS_high.filter
    (fun kw => strContains message_lower kw)
  let medium_matches := EMERGENCY_KEYWORDS_medium.filter
    (fun kw => strContains message_lower kw)
  if high_matches.isEmpty then
    if medium_matches.length ≥ 2 ||
        (!medium_matches.isEmpty && strContains message "!") then
      { is_potential_emergency := true, confidence := some "medium",
        matched_keywords := medium_matches, requires_confirmation := true }
    else
      { is_potential_emergency := false, confidence := none,
        matched_keywords := [], requires_confirmation := false }
  else
    { is_potential_emergency := true, confidence := some "high",
      matched_keywords := high_matches, requires_confirmation := true }

/-! ## Slot selection parsing (architecture doc section 4.3) -/

/-- Embedding of the first number pattern: the regex matches exactly the
string 1, or any occurrence of primera, opción 1 or uno. -/
def number_pattern_one (message : String) : Bool :=
  message == "1" || strContains message "primera" ||
    strContains message "opción 1" || strContains message "uno"

/-- Embedding of the second number pattern. -/
def number_pattern_two (message : String) : Bool :=
  message == "2" || strContains message "segunda" ||
    strContains message "opción 2" || strContains message "dos"

/-- Embedding of the third number pattern. -/
def number_pattern_three (message : String) : Bool :=
  message == "3" || strContains message "tercera" ||
    strContains message "opción 3" || strContains message "tres"

/-- The number_patterns table of parse_slot_selection. -/
def number_patterns : List ((String → Bool) × Nat) :=
  [(number_pattern_one, 0), (number_pattern_two, 1), (number_pattern_three, 2)]

/-- Loop over number_patterns: a pattern that matches returns the offered slot
at its index when that index is in range, and otherwise the loop continues
with the remaining patterns. -/
def select_by_number :
    List ((String → Bool) × Nat) → String → List TimeSlot → Option TimeSlot
  | [], _, _ => none
  | (p, i) :: rest, message, slots =>
    if p message then
      match slots.get? i with
      | some s => some s
      | none => select_by_number rest message slots
    else select_by_number rest message slots

/-- Loop over time_patterns.  An extractor stands for one (regex, extractor)
pair of the source: none when the regex finds no match, otherwise the target
value the extractor computes.  A matching slot of the offered list is
returned; with no matching slot the loop continues. -/
def select_by_time :
    List (String → Option Int) → (TimeSlot → Int → Bool) → String →
      List TimeSlot → Option TimeSlot
  | [], _, _, _ => none
  | ex :: rest, slot_matches, message, slots =>
    match ex message with
    | some target =>
      match slots.find? (fun s => slot_matches s target) with
      | some s => some s
      | none => select_by_time rest slot_matches message slots
    | none => select_by_time rest slot_matches message slots

/-- Embedding of parse_slot_selection.  extract_time, extract_relative_date
and slot_matches are helpers the source calls but does not define; they are
taken as parameters, so every statement proved below holds for every behavior
of them. -/
def parse_slot_selection (extract_time extract_relative_date : String → Option Int)
    (slot_matches : TimeSlot → Int → Bool)
    (user_message : String) (offered_slots : List TimeSlot) : Option TimeSlot :=
  let message := pyStrip (pyLower user_message)
  match select_by_number number_patterns message offered_slots with
  | some s => some s
  | none =>
    select_by_time [extract_time, extract_relative_date] slot_matches
      message offered_slots

/-! ## Data model (architecture doc sections 1 and 8) -/

/-- Business hours of one weekday, minutes from midnight. -/
structure BusinessHours where
  is_open : Bool
  open_time : Int
  close_time : Int
deriving DecidableEq, Repr

/-- A clinic: its per-weekday hours table (python dict keyed by weekday) and
its ordered emergency escalation contact phones. -/
structure Clinic where
  id : String
  business_hours : List (Nat × BusinessHours)
  escalation_contacts : List String
deriving DecidableEq, Repr

/-- A python date: the minute of its midnight on the absolute timeline, and
its weekday as date.weekday() returns it. -/
structure PyDate where
  base : Int
  weekday : Nat
deriving DecidableEq, Repr

/-- A client record, with the false-emergency abuse counter. -/
structure Client where
  id : String
  clinic_id : String
  phone : String
  name : Option String
  false_emergency_count : Nat
deriving DecidableEq, Repr

/-- A pet record. -/
structure Pet where
  id : String
  client_id : String
  name : String
  species : Option String
deriving DecidableEq, Repr

/-- A conversation row: state, state-scoped working memory, extracted
entities and the links the emergency and follow-up flows set.  The field
kind embeds the source column named type, a reserved word in Lean. -/
structure Conversation where
  id : String
  clinic_id : String
  client_phone : String
  channel : String
  kind : String
  state : String
  state_data : List (String × String)
  extracted_client_name : Option String
  extracted_pet_name : Option String
  extracted_pet_species : Option String
  emergency_description : String
  emergency_keywords : List String
  emergency_id : Option String
  follow_up_id : Option String
  last_state_change : Option Int
  timeout_at : Option Int
deriving DecidableEq, Repr

/-- An appointment row. -/
structure Appointment where
  id : String
  clinic_id : String
  client_id : Option String
  pet_id : Option String
  start_time : Int
  end_time : Int
  duration_minutes : Int
  reason : String
  status : String
  source : String
  conversation_id : Option String
  priority : String
  emergency_id : Option String
  created_at : Int
deriving DecidableEq, Repr

/-- An emergency event row. -/
structure EmergencyEvent where
  id : String
  clinic_id : String
  conversation_id : Option String
  client_phone : String
  description : String
  keywords_detected : List String
  status : String
  created_at : Int
deriving DecidableEq, Repr

/-- An emergency alert row, one per alerted contact. -/
structure EmergencyAlert where
  emergency_id : String
  contact_phone : String
  sent_at : Int
  status : String
deriving DecidableEq, Repr

/-- A scheduled follow-up row. -/
structure FollowUp where
  id : String
  appointment_id : String
  clinic_id : String
  client_id : Option String
  pet_id : Option String
  message_template : String
  escalation_keywords : List String
  scheduled_at : Int
  status : String
  sequence_number : Nat
  created_at : Int
deriving DecidableEq, Repr

/-- The transactional store, threaded explicitly through every operation.
sent_alerts records the outbound send_emergency_alert calls (phone, text), an
external effect of escalation. -/
structure DB where
  clinics : List Clinic
  clients : List Client
  pets : List Pet
  conversations : List Conversation
  appointments : List Appointment
  emergencies : List EmergencyEvent
  alerts : List EmergencyAlert
  follow_ups : List FollowUp
  sent_alerts : List (String × String)
deriving DecidableEq, Repr

/-- Lookup of a conversation by id. -/
def get_conversation (db : DB) (conversation_id : String) : Option Conversation :=
  db.conversations.find? (fun c => c.id == conversation_id)

/-- Lookup of a clinic by id. -/
def get_clinic (db : DB) (clinic_id : String) : Option Clinic :=
  db.clinics.find? (fun c => c.id == clinic_id)

/-- Lookup of a client by phone. -/
def get_client_by_phone (db : DB) (phone : String) : Option Client :=
  db.clients.find? (fun c => c.phone == phone)

/-- Lookup of an appointment by id. -/
def get_appointment (db : DB) (appointment_id : String) : Option Appointment :=
  db.appointments.find? (fun a => a.id == appointment_id)

/-! ## Scheduling engine (architecture doc section 4) -/

/-- Modelled from the spec: get_appointments_for_date is called by
get_available_slots but is not among the repository files.  The spec requires
the conflict filter to run against any non-cancelled existing appointment, so
the fetch returns the stored appointments of the clinic. -/
def get_appointments_for_date (db : DB) (clinic_id : String) (_date : PyDate) :
    List Appointment :=
  db.appointments.filter (fun a => a.clinic_id == clinic_id)

/-- The slot generation loop of get_available_slots: starting at current,
emit a slot of the given duration whenever it still fits before close, and
advance by the fixed 30-minute granularity. -/
def gen_slots (current close duration : Int) : List TimeSlot :=
  if current + duration ≤ close then
    { start := current, stop := current + duration } ::
      gen_slots (current + 30) close duration
  else []
termination_by (close - duration - current + 30).toNat
decreasing_by
  simp_wf
  omega

/-- Embedding of get_available_slots.  The clinic is passed directly,
standing for the get_clinic fetch of the source. -/
def get_available_slots (clinic : Clinic) (db : DB) (date : PyDate)
    (duration : Int) : List TimeSlot :=
  match clinic.business_hours.lookup date.weekday with
  | none => []
  | some hours =>
    if !hours.is_open then []
    else
      let slot_start := date.base + hours.open_time
      let slot_end := date.base + hours.close_time
      let all_slots := gen_slots slot_start slot_end duration
      let existing := get_appointments_for_date db clinic.id date
      let available := all_slots.filter (fun slot =>
        !(existing.any (fun apt =>
          apt.status != "cancelled" &&
          decide (apt.start_time < slot.stop + 5) &&
          decide (apt.end_time > slot.start - 5))))
      available.take 10

/-- Errors of appointment creation.  ConversationNotFound models the python
exception a failed conversation fetch raises before any write. -/
inductive SchedulingError where
  | SlotNoLongerAvailable
  | ConversationNotFound
deriving DecidableEq, Repr

/-- Modelled from the spec: is_slot_available is called by
create_appointment_from_conversation but is not among the repository files.
The spec words it as a second, authoritative overlap check under the same
buffer rule, so it repeats the 5-minute-buffer overlap test of
get_available_slots against the stored non-cancelled appointments of the
clinic. -/
def is_slot_available (db : DB) (clinic_id : String) (slot : TimeSlot) : Bool :=
  !(db.appointments.any (fun apt =>
    apt.clinic_id == clinic_id &&
    apt.status != "cancelled" &&
    decide (apt.start_time < slot.stop + 5) &&
    decide (apt.end_time > slot.start - 5)))

/-- Embedding of get_or_create_client: an existing (clinic, phone) client is
returned as is, otherwise a fresh row is persisted. -/
def get_or_create_client (db : DB) (clinic_id phone : String)
    (name : Option String) (new_id : String) : Client × DB :=
  match db.clients.find? (fun c => c.clinic_id == clinic_id && c.phone == phone) with
  | some c => (c, db)
  | none =>
    let c : Client := {
      id := new_id, clinic_id := clinic_id, phone := phone,
      name := name, false_emergency_count := 0 }
    (c, { db with clients := db.clients ++ [c] })

/-- Embedding of get_or_create_pet. -/
def get_or_create_pet (db : DB) (client_id pname : String)
    (species : Option String) (new_id : String) : Pet × DB :=
  match db.pets.find? (fun p => p.client_id == client_id && p.name == pname) with
  | some p => (p, db)
  | none =>
    let p : Pet := {
      id := new_id, client_id := client_id, name := pname,
      species := species }
    (p, { db with pets := db.pets ++ [p] })

/-- Embedding of create_appointment_from_conversation: re-validate the slot,
resolve or create the client and pet, persist one appointment linked to the
conversation with source whatsapp. -/
def create_appointment_from_conversation (db : DB) (conversation_id : String)
    (slot : TimeSlot) (reason : String)
    (new_appointment_id new_client_id new_pet_id : String) (now : Int) :
    (Except SchedulingError Appointment) × DB :=
  match get_conversation db conversation_id with
  | none => (.error .ConversationNotFound, db)
  | some conversation =>
    if !is_slot_available db conversation.clinic_id slot then
      (.error .SlotNoLongerAvailable, db)
    else
      let r1 := get_or_create_client db conversation.clinic_id
        conversation.client_phone conversation.extracted_client_name new_client_id
      let client := r1.1
      let db1 := r1.2
      let r2 :=
        match conversation.extracted_pet_name with
        | some pname =>
          let p := get_or_create_pet db1 client.id pname
            conversation.extracted_pet_species new_pet_id
          (some p.1, p.2)
        | none => (none, db1)
      let petOpt : Option Pet := r2.1
      let db2 := r2.2
      let appointment : Appointment := {
        id := new_appointment_id,
        clinic_id := conversation.clinic_id,
        client_id := some client.id,
        pet_id := petOpt.map (fun p => p.id),
        start_time := slot.start,
        end_time := slot.stop,
        duration_minutes := slot.stop - slot.start,
        reason := reason,
        status := "scheduled",
        source := "whatsapp",
        conversation_id := some conversation_id,
        priority := "normal",
        emergency_id := none,
        created_at := now }
      (.ok appointment, { db2 with appointments := db2.appointments ++ [appointment] })

/-! ## Emergency pipeline (architecture doc section 5) -/

/-- Result record of the emergency confirmation and escalation path. -/
structure EmergencyAction where
  action : String
  message : String
  emergency_id : Option String
deriving DecidableEq, Repr

/-- Embedding of format_emergency_alert. -/
def format_emergency_alert (emergency : EmergencyEvent)
    (conversation : Conversation) : String :=
  "🚨 EMERGENCIA\n\n📞 " ++ conversation.client_phone ++ "\n🐾 " ++
    conversation.extracted_pet_species.getD "Mascota" ++ "\n⚠️ " ++
    emergency.description.take 100 ++ "\n\nPalabras clave: " ++
    String.intercalate ", " (emergency.keywords_detected.take 3) ++
    "\n\nResponde a este mensaje para confirmar recepción."

/-- Modelled from the spec: format_emergency_client_response is called by the
escalation but is not among the repository files and no property below
depends on its text. -/
def format_emergency_client_response (_clinic : Clinic) : String :=
  "🚨 EMERGENCIA REGISTRADA"

/-- Embedding of create_emergency_slot: one parallel priority appointment
starting now with 60-minute duration, appended to the store; nothing else of
the store is touched. -/
def create_emergency_slot (db : DB) (clinic_id emergency_id new_id : String)
    (now : Int) : Appointment × DB :=
  let appointment : Appointment := {
    id := new_id,
    clinic_id := clinic_id,
    client_id := none,
    pet_id := none,
    start_time := now,
    end_time := now + 60,
    duration_minutes := 60,
    reason := "EMERGENCIA",
    status := "emergency",
    source := "whatsapp",
    conversation_id := none,
    priority := "emergency",
    emergency_id := some emergency_id,
    created_at := now }
  (appointment, { db with appointments := db.appointments ++ [appointment] })

/-- Embedding of execute_emergency_escalation: create the emergency event,
create the priority slot, send and log one alert per escalation contact of
the clinic, then move the conversation to ESCALATE.  A failed conversation
or clinic fetch raises before any write, embedded as (none, db). -/
def execute_emergency_escalation (db : DB) (conversation_id : String)
    (new_emergency_id new_appointment_id : String) (now : Int) :
    (Option EmergencyAction) × DB :=
  match get_conversation db conversation_id with
  | none => (none, db)
  | some conversation =>
    match get_clinic db conversation.clinic_id with
    | none => (none, db)
    | some clinic =>
      let emergency : EmergencyEvent := {
        id := new_emergency_id,
        clinic_id := conversation.clinic_id,
        conversation_id := some conversation_id,
        client_phone := conversation.client_phone,
        description := conversation.emergency_description,
        keywords_detected := conversation.emergency_keywords,
        status := "active",
        created_at := now }
      let db1 : DB := { db with emergencies := db.emergencies ++ [emergency] }
      let r := create_emergency_slot db1 conversation.clinic_id emergency.id
        new_appointment_id now
      let db2 := r.2
      let contacts := clinic.escalation_contacts
      let db3 : DB := { db2 with
        sent_alerts := db2.sent_alerts ++ contacts.map
          (fun phone => (phone, format_emergency_alert emergency conversation)),
        alerts := db2.alerts ++ contacts.map (fun phone =>
          { emergency_id := emergency.id, contact_phone := phone,
            sent_at := now, status := "sent" }) }
      let db4 : DB := { db3 with conversations := db3.conversations.map (fun c =>
        if c.id == conversation_id then
          { c with state := "ESCALATE", emergency_id := some emergency.id }
        else c) }
      (some { action := "escalated",
              message := format_emergency_client_response clinic,
              emergency_id := some emergency.id }, db4)

/-- Embedding of handle_emergency_confirmation: deny on a prior
false-emergency count of at least 1, count and redirect on a denial of the
confirmation prompt, escalate on a confirmation. -/
def handle_emergency_confirmation (db : DB) (conversation_id : String)
    (user_confirmed : Bool) (new_emergency_id new_appointment_id : String)
    (now : Int) : (Option EmergencyAction) × DB :=
  match get_conversation db conversation_id with
  | none => (none, db)
  | some conversation =>
    match get_client_by_phone db conversation.client_phone with
    | some client =>
      if client.false_emergency_count ≥ 1 then
        (some { action := "denied",
                message := "Lo siento, el acceso a emergencias está restringido para este número. Por favor llama directamente al consultorio.",
                emergency_id := none }, db)
      else if user_confirmed then
        execute_emergency_escalation db conversation_id new_emergency_id
          new_appointment_id now
      else
        (some { action := "redirect_to_scheduling",
                message := "Entendido. ¿Te gustaría agendar una cita regular para revisión?",
                emergency_id := none },
         { db with clients := db.clients.map (fun c =>
             if c.id == client.id then
               { c with false_emergency_count := c.false_emergency_count + 1 }
             else c) })
    | none =>
      if user_confirmed then
        execute_emergency_escalation db conversation_id new_emergency_id
          new_appointment_id now
      else
        (some { action := "redirect_to_scheduling",
                message := "Entendido. ¿Te gustaría agendar una cita regular para revisión?",
                emergency_id := none }, db)

/-! ## Follow-up engine (architecture doc section 6) -/

/-- One follow-up protocol: check-in delays in hours, one message per step,
and the escalation keyword set. -/
structure FollowUpProtocol where
  schedule : List Int
  messages : List String
  escalation_keywords : List String
deriving DecidableEq, Repr

/-- The surgery protocol of FOLLOW_UP_PROTOCOLS. -/
def surgeryProtocol : FollowUpProtocol := {
  schedule := [24, 48, 72, 168],
  messages := [
    "Hola, ¿cómo sigue {pet_name} después de la cirugía de ayer? ¿Ha comido y orinado con normalidad?",
    "Hola, segundo día post-operatorio. ¿Cómo va la recuperación de {pet_name}? ¿Alguna molestia o sangrado?",
    "Hola, ¿cómo sigue {pet_name}? ¿La herida se ve bien? ¿Ha tenido fiebre o dejado de comer?",
    "Hola, esta semana toca revisión de puntos para {pet_name}. ¿Quieres que agendemos la cita?"],
  escalation_keywords := ["sangre", "sangrado", "fiebre", "no come", "hinchado", "pus", "olor"] }

/-- The vaccination protocol of FOLLOW_UP_PROTOCOLS. -/
def vaccinationProtocol : FollowUpProtocol := {
  schedule := [24],
  messages := [
    "Hola, ¿cómo está {pet_name} después de la vacuna? Es normal algo de decaimiento. Si presenta vómito, diarrea o hinchazón en la cara, escríbenos de inmediato."],
  escalation_keywords := ["vómito", "diarrea", "hinchazón", "cara hinchada", "no respira"] }

/-- The consultation protocol of FOLLOW_UP_PROTOCOLS, the generic default. -/
def consultationProtocol : FollowUpProtocol := {
  schedule := [48],
  messages := ["Hola, ¿cómo sigue {pet_name}? ¿Ha mejorado con el tratamiento?"],
  escalation_keywords := ["peor", "empeora", "no mejora", "igual"] }

/-- The FOLLOW_UP_PROTOCOLS table keyed by procedure type. -/
def FOLLOW_UP_PROTOCOLS : List (String × FollowUpProtocol) :=
  [("surgery", surgeryProtocol),
   ("vaccination", vaccinationProtocol),
   ("consultation", consultationProtocol)]

/-- Embedding of schedule_follow_ups: look the protocol up by procedure type
with the consultation protocol as default, and persist one pending FollowUp
per protocol step at the appointment end plus the step delay.  Fresh row ids
come from mk_id; none embeds a failed appointment fetch. -/
def schedule_follow_ups (db : DB) (appointment_id procedure_type : String)
    (mk_id : Nat → String) (now : Int) : Option (List FollowUp × DB) :=
  match get_appointment db appointment_id with
  | none => none
  | some appointment =>
    let protocol := (FOLLOW_UP_PROTOCOLS.lookup procedure_type).getD
      consultationProtocol
    let follow_ups := protocol.schedule.enum.map (fun p => {
      id := mk_id p.1,
      appointment_id := appointment_id,
      clinic_id := appointment.clinic_id,
      client_id := appointment.client_id,
      pet_id := appointment.pet_id,
      message_template := protocol.messages.getD p.1 "",
      escalation_keywords := protocol.escalation_keywords,
      scheduled_at := appointment.end_time + p.2 * 60,
      status := "pending",
      sequence_number := p.1 + 1,
      created_at := now : FollowUp })
    some (follow_ups, { db with follow_ups := db.follow_ups ++ follow_ups })

/-! ## Conversation state machine (architecture doc section 2) -/

/-- The STATE_TRANSITIONS adjacency table of the source. -/
def STATE_TRANSITIONS : List (String × List String) :=
  [("IDLE", ["GREETING"]),
   ("GREETING", ["INTENT_DETECTION", "REMINDER"]),
   ("INTENT_DETECTION", ["ASK_REASON", "CONFIRM_EMERGENCY", "COLLECT_STATUS", "GREETING", "REMINDER"]),
   ("ASK_REASON", ["OFFER_SLOTS", "CONFIRM_EMERGENCY", "REMINDER"]),
   ("OFFER_SLOTS", ["AWAIT_SELECTION", "ASK_REASON", "REMINDER"]),
   ("AWAIT_SELECTION", ["CONFIRM_BOOKING", "OFFER_SLOTS", "REMINDER"]),
   ("CONFIRM_BOOKING", ["COMPLETED", "OFFER_SLOTS", "REMINDER"]),
   ("CONFIRM_EMERGENCY", ["ESCALATE", "ASK_REASON", "CLOSED"]),
   ("ESCALATE", ["COMPLETED"]),
   ("COLLECT_STATUS", ["COMPLETED", "ESCALATE", "REMINDER"]),
   ("COMPLETED", ["CLOSED"]),
   ("REMINDER", ["INTENT_DETECTION", "CLOSED"]),
   ("CLOSED", ["GREETING"])]

/-- The per-state timeout table of the state definitions, in minutes; the
states without a timeout are absent. -/
def STATE_TIMEOUTS : List (String × Int) :=
  [("GREETING", 5), ("INTENT_DETECTION", 10), ("ASK_REASON", 15),
   ("OFFER_SLOTS", 15), ("AWAIT_SELECTION", 15), ("CONFIRM_BOOKING", 10),
   ("CONFIRM_EMERGENCY", 5), ("COLLECT_STATUS", 1440), ("REMINDER", 1440)]

/-- Error of the state machine contract. -/
inductive TransitionError where
  | InvalidTransition
deriving DecidableEq, Repr

/-- Modelled from the spec: the transition function itself is not among the
repository files, only its STATE_TRANSITIONS table is.  Per the section 4.1
contract, a destination listed for the current state updates the state, the
last-transition timestamp and the timeout deadline from the per-state table;
a destination outside the table fails with InvalidTransition and returns the
conversation exactly as it was. -/
def transition (conversation : Conversation) (target : String) (now : Int) :
    (Option TransitionError) × Conversation :=
  let allowed := (STATE_TRANSITIONS.lookup conversation.state).getD []
  if target ∈ allowed then
    (none, { conversation with
      state := target,
      last_state_change := some now,
      timeout_at := (STATE_TIMEOUTS.lookup target).map (fun m => now + m) })
  else
    (some .InvalidTransition, conversation)

/-! ## Concrete fixtures for the closed statements below -/

/-- Fixture clinic: open Mondays 9:00 to 18:00, closed Sundays. -/
def clinicOne : Clinic := {
  id := "cl1",
  business_hours :=
    [(0, { is_open := true, open_time := 540, close_time := 1080 }),
     (6, { is_open := false, open_time := 0, close_time := 0 })],
  escalation_contacts := ["555-0100", "555-0101"] }

/-- Fixture conversation in the emergency confirmation state. -/
def convOne : Conversation := {
  id := "conv1",
  clinic_id := "cl1",
  client_phone := "555-0199",
  channel := "whatsapp",
  kind := "inbound",
  state := "CONFIRM_EMERGENCY",
  state_data := [],
  extracted_client_name := some "Ana",
  extracted_pet_name := some "Luna",
  extracted_pet_species := some "Gato",
  emergency_description := "Mi gato se comió veneno ayuda",
  emergency_keywords := ["veneno", "ayuda"],
  emergency_id := none,
  follow_up_id := none,
  last_state_change := none,
  timeout_at := none }

/-- Fixture conversation sitting in IDLE. -/
def convIdle : Conversation := { convOne with id := "conv2", state := "IDLE" }

/-- Fixture client with one recorded false emergency. -/
def clientAbuser : Client := {
  id := "cli1", clinic_id := "cl1", phone := "555-0199",
  name := some "Ana", false_emergency_count := 1 }

/-- Fixture completed surgery appointment. -/
def aptOne : Appointment := {
  id := "apt1", clinic_id := "cl1", client_id := some "cli1",
  pet_id := some "pet1", start_time := 600, end_time := 630,
  duration_minutes := 30, reason := "cirugía", status := "completed",
  source := "whatsapp", conversation_id := some "conv1",
  priority := "normal", emergency_id := none, created_at := 0 }

/-- Fixture store: one clinic, one conversation, nothing else. -/
def dbOne : DB := {
  clinics := [clinicOne], clients := [], pets := [],
  conversations := [convOne], appointments := [], emergencies := [],
  alerts := [], follow_ups := [], sent_alerts := [] }

/-- Fixture store whose client has a recorded false emergency. -/
def dbAbuse : DB := { dbOne with clients := [clientAbuser] }

/-- Fixture store holding the completed surgery appointment. -/
def dbSurgery : DB := { dbOne with appointments := [aptOne] }

theorem select_by_number_mem {pats : List ((String → Bool) × Nat)}
    {message : String} {slots : List TimeSlot} {s : TimeSlot}
    (h : select_by_number pats message slots = some s) : s ∈ slots := by
  induction pats with
  | nil => simp [select_by_number] at h
  | cons pi rest ih =>
    obtain ⟨p, i⟩ := pi
    rw [select_by_number] at h
    by_cases hp : p message
    · rw [if_pos hp] at h
      cases hg : slots.get? i with
      | none => rw [hg] at h; exact ih h
      | some t =>
        rw [hg] at h
        cases h
        exact List.get?_mem hg
    · rw [if_neg hp] at h
      exact ih h

theorem select_by_time_mem {exs : List (String → Option Int)}
    {slot_matches : TimeSlot → Int → Bool} {message : String}
    {slots : List TimeSlot} {s : TimeSlot}
    (h : select_by_time exs slot_matches message slots = some s) : s ∈ slots := by
  induction exs with
  | nil => simp [select_by_time] at h
  | cons ex rest ih =>
    rw [select_by_time] at h
    split at h
    · split at h
      · next t hf =>
          cases h
          exact List.mem_of_find?_eq_some hf
      · exact ih h
    · exact ih h

/-- C10: parse_slot_selection only ever answers with a slot of the offered
list; whenever it returns a slot, that slot is a member of offered_slots, for
every user text and every behavior of the undefined time and date helpers.
An ordinal past the end of the list falls through the range check and cannot
produce a slot from outside the list. -/
theorem parse_slot_selection_mem
    (extract_time extract_relative_date : String → Option Int)
    (slot_matches : TimeSlot → Int → Bool)
    (user_message : String) (offered_slots : List TimeSlot) (s : TimeSlot)
    (h : parse_slot_selection extract_time extract_relative_date slot_matches
        user_message offered_slots = some s) :
    s ∈ offered_slots := by
  rw [parse_slot_selection] at h
  cases hn : select_by_number number_patterns (pyStrip (pyLower user_message))
      offered_slots with
  | some t =>
    rw [hn] at h
    cases h
    exact select_by_number_mem hn
  | none =>
    rw [hn] at h
    exact select_by_time_mem h

/-- Witness for C10 at the concrete input "1" with a single offered slot. -/
theorem parse_slot_selection_mem_witness :
    TimeSlot.mk 540 570 ∈ [TimeSlot.mk 540 570] :=
  parse_slot_selection_mem (fun _ => none) (fun _ => none) (fun _ _ => false)
    "1" [TimeSlot.mk 540 570] (TimeSlot.mk 540 570) (by decide)

/-- C4: a message containing a high-confidence emergency term as a
case-insensitive substring is classified as a potential emergency with high
confidence and a required confirmation, whatever the surrounding text. -/
theorem detect_emergency_high_term (message kw : String)
    (hkw : kw ∈ EMERGENCY_KEYWORDS_high)
    (hsub : strContains (pyLower message) kw = true) :
    (detect_emergency message).is_potential_emergency = true ∧
    (detect_emergency message).confidence = some "high" ∧
    (detect_emergency message).requires_confirmation = true := by
  have hmem : kw ∈ EMERGENCY_KEYWORDS_high.filter
      (fun k => strContains (pyLower message) k) :=
    List.mem_filter.mpr ⟨hkw, hsub⟩
  have hne : (EMERGENCY_KEYWORDS_high.filter
      (fun k => strContains (pyLower message) k)).isEmpty = false := by
    cases hE : EMERGENCY_KEYWORDS_high.filter
        (fun k => strContains (pyLower message) k) with
    | nil => rw [hE] at hmem; cases hmem
    | cons a t => rfl
  simp [detect_emergency, hne]

/-- Witness for C4 at a concrete message whose emergency term is upper-case
and surrounded by other words. -/
theorem detect_emergency_high_term_witness :
    (detect_emergency "Ayuda, mi perro NO RESPIRA bien").is_potential_emergency = true ∧
    (detect_emergency "Ayuda, mi perro NO RESPIRA bien").confidence = some "high" ∧
    (detect_emergency "Ayuda, mi perro NO RESPIRA bien").requires_confirmation = true :=
  detect_emergency_high_term "Ayuda, mi perro NO RESPIRA bien" "no respira"
    (by decide) (by decide)

/-- C3: a requested destination state not listed for the current state in
STATE_TRANSITIONS makes the transition fail with InvalidTransition and
returns the conversation with state, working memory and timeout deadline
exactly as they were. -/
theorem transition_invalid_unchanged (conversation : Conversation)
    (target : String) (now : Int)
    (h : target ∉ (STATE_TRANSITIONS.lookup conversation.state).getD []) :
    transition conversation target now = (some .InvalidTransition, conversation) ∧
    (transition conversation target now).2.state = conversation.state ∧
    (transition conversation target now).2.state_data = conversation.state_data ∧
    (transition conversation target now).2.timeout_at = conversation.timeout_at := by
  have he : transition conversation target now =
      (some .InvalidTransition, conversation) := by
    simp only [transition]
    rw [if_neg h]
  exact ⟨he, by rw [he], by rw [he], by rw [he]⟩

/-- Witness for C3: from IDLE the only listed destination is GREETING, so a
request for CLOSED is refused and the conversation row is returned as is. -/
theorem transition_invalid_unchanged_witness :
    transition convIdle "CLOSED" 100 = (some .InvalidTransition, convIdle) :=
  (transition_invalid_unchanged convIdle "CLOSED" 100 (by decide)).1

/-- C7: a weekday with no business-hours row, or with a row marked closed,
yields an empty slot list. -/
theorem get_available_slots_closed_day (clinic : Clinic) (db : DB)
    (date : PyDate) (duration : Int)
    (h : clinic.business_hours.lookup date.weekday = none ∨
      ∃ hours, clinic.business_hours.lookup date.weekday = some hours ∧
        hours.is_open = false) :
    get_available_slots clinic db date duration = [] := by
  unfold get_available_slots
  rcases h with h | ⟨hours, h, hop⟩
  · rw [h]
  · rw [h]
    simp [hop]

/-- Witness for C7 on the fixture clinic, whose Sunday row is closed. -/
theorem get_available_slots_closed_day_witness :
    get_available_slots clinicOne dbOne { base := 10080, weekday := 6 } 30 = [] :=
  get_available_slots_closed_day clinicOne dbOne { base := 10080, weekday := 6 } 30
    (Or.inr ⟨{ is_open := false, open_time := 0, close_time := 0 }, rfl, rfl⟩)

/-- C5: a contact with a recorded false-emergency count of at least 1 is
denied with the redirect to call the clinic directly, for either value of
the confirmation flag, and the store is returned untouched: no emergency
event, no alert and no priority appointment are created. -/
theorem handle_emergency_confirmation_abuse (db : DB) (conversation_id : String)
    (user_confirmed : Bool) (new_emergency_id new_appointment_id : String)
    (now : Int) (conversation : Conversation) (client : Client)
    (hconv : get_conversation db conversation_id = some conversation)
    (hclient : get_client_by_phone db conversation.client_phone = some client)
    (hcount : client.false_emergency_count ≥ 1) :
    handle_emergency_confirmation db conversation_id user_confirmed
        new_emergency_id new_appointment_id now =
      (some { action := "denied",
              message := "Lo siento, el acceso a emergencias está restringido para este número. Por favor llama directamente al consultorio.",
              emergency_id := none }, db) := by
  simp only [handle_emergency_confirmation, hconv, hclient]
  rw [if_pos hcount]

/-- Witness for C5: the fixture client has false_emergency_count equal to 1
and a confirmed emergency is still denied with the store unchanged. -/
theorem handle_emergency_confirmation_abuse_witness :
    handle_emergency_confirmation dbAbuse "conv1" true "em1" "apt9" 0 =
      (some { action := "denied",
              message := "Lo siento, el acceso a emergencias está restringido para este número. Por favor llama directamente al consultorio.",
              emergency_id := none }, dbAbuse) :=
  handle_emergency_confirmation_abuse dbAbuse "conv1" true "em1" "apt9" 0
    convOne clientAbuser (by decide) (by decide) (by decide)

/-- C8: escalation appends exactly one priority appointment, with status and
priority emergency and starting at the current instant, to the stored
appointment list; every pre-existing appointment is carried over unchanged
in place. -/
theorem execute_emergency_escalation_appointments (db : DB)
    (conversation_id new_emergency_id new_appointment_id : String) (now : Int)
    (conversation : Conversation) (clinic : Clinic)
    (hconv : get_conversation db conversation_id = some conversation)
    (hclinic : get_clinic db conversation.clinic_id = some clinic) :
    ∃ action db2,
      execute_emergency_escalation db conversation_id new_emergency_id
          new_appointment_id now = (some action, db2) ∧
      db2.appointments = db.appointments ++
        [{ id := new_appointment_id,
           clinic_id := conversation.clinic_id,
           client_id := none,
           pet_id := none,
           start_time := now,
           end_time := now + 60,
           duration_minutes := 60,
           reason := "EMERGENCIA",
           status := "emergency",
           source := "whatsapp",
           conversation_id := none,
           priority := "emergency",
           emergency_id := some new_emergency_id,
           created_at := now }] := by
  simp only [execute_emergency_escalation, hconv, hclinic, create_emergency_slot]
  exact ⟨_, _, rfl, rfl⟩

/-- Witness for C8 on the fixture store. -/
theorem execute_emergency_escalation_appointments_witness :
    ∃ action db2,
      execute_emergency_escalation dbOne "conv1" "em1" "apt9" 0 =
        (some action, db2) ∧
      db2.appointments = dbOne.appointments ++
        [{ id := "apt9",
           clinic_id := convOne.clinic_id,
           client_id := none,
           pet_id := none,
           start_time := 0,
           end_time := 0 + 60,
           duration_minutes := 60,
           reason := "EMERGENCIA",
           status := "emergency",
           source := "whatsapp",
           conversation_id := none,
           priority := "emergency",
           emergency_id := some "em1",
           created_at := 0 }] :=
  execute_emergency_escalation_appointments dbOne "conv1" "em1" "apt9" 0
    convOne clinicOne (by decide) (by decide)

/-- C1 fails on the code: execute_emergency_escalation has no idempotency
guard keyed by conversation id, so running it a second time for the same
conversation (the retry the spec demands be safe) appends a second active
EmergencyEvent for that conversation. -/
theorem execute_emergency_escalation_retry_duplicates :
    (((execute_emergency_escalation
          (execute_emergency_escalation dbOne "conv1" "em1" "apt1" 0).2
          "conv1" "em2" "apt2" 5).2.emergencies.filter
        (fun e => e.conversation_id == some "conv1" && e.status == "active")).length)
      = 2 := by
  decide

theorem get_or_create_client_appointments (db : DB) (clinic_id phone : String)
    (name : Option String) (new_id : String) :
    (get_or_create_client db clinic_id phone name new_id).2.appointments
      = db.appointments := by
  unfold get_or_create_client
  split <;> rfl

theorem get_or_create_pet_appointments (db : DB) (client_id pname : String)
    (species : Option String) (new_id : String) :
    (get_or_create_pet db client_id pname species new_id).2.appointments
      = db.appointments := by
  unfold get_or_create_pet
  split <;> rfl

/-- C2: appointment creation re-checks the slot against the stored
appointments under the 5-minute buffer rule at commit time.  When the slot
is taken it fails with SlotNoLongerAvailable and the store is returned
untouched; when it is free, exactly one appointment is appended, linked to
the conversation and with source whatsapp. -/
theorem create_appointment_recheck (db : DB) (conversation_id : String)
    (slot : TimeSlot) (reason : String)
    (new_appointment_id new_client_id new_pet_id : String) (now : Int)
    (conversation : Conversation)
    (hconv : get_conversation db conversation_id = some conversation) :
    (is_slot_available db conversation.clinic_id slot = false →
      create_appointment_from_conversation db conversation_id slot reason
          new_appointment_id new_client_id new_pet_id now =
        (.error .SlotNoLongerAvailable, db)) ∧
    (is_slot_available db conversation.clinic_id slot = true →
      ∃ a db2,
        create_appointment_from_conversation db conversation_id slot reason
            new_appointment_id new_client_id new_pet_id now = (.ok a, db2) ∧
        db2.appointments = db.appointments ++ [a] ∧
        a.conversation_id = some conversation_id ∧
        a.source = "whatsapp" ∧
        a.status = "scheduled" ∧
        a.start_time = slot.start ∧
        a.end_time = slot.stop) := by
  constructor
  · intro hna
    simp [create_appointment_from_conversation, hconv, hna]
  · intro ha
    cases hpet : conversation.extracted_pet_name with
    | none =>
      simp only [create_appointment_from_conversation, hconv, hpet, ha,
        Bool.not_true, Bool.false_eq_true, if_false]
      refine ⟨_, _, rfl, ?_, rfl, rfl, rfl, rfl, rfl⟩
      simp only [get_or_create_client_appointments]
    | some pname =>
      simp only [create_appointment_from_conversation, hconv, hpet, ha,
        Bool.not_true, Bool.false_eq_true, if_false]
      refine ⟨_, _, rfl, ?_, rfl, rfl, rfl, rfl, rfl⟩
      simp only [get_or_create_pet_appointments,
        get_or_create_client_appointments]

/-- Witness for C2 on the fixture store, whose appointment list is empty, so
the re-check passes and the booking is persisted. -/
theorem create_appointment_recheck_witness :
    ∃ a db2,
      create_appointment_from_conversation dbOne "conv1"
          { start := 600, stop := 630 } "revisión" "apt9" "cli9" "pet9" 0 =
        (.ok a, db2) ∧
      db2.appointments = dbOne.appointments ++ [a] ∧
      a.conversation_id = some "conv1" ∧
      a.source = "whatsapp" ∧
      a.status = "scheduled" ∧
      a.start_time = ({ start := 600, stop := 630 } : TimeSlot).start ∧
      a.end_time = ({ start := 600, stop := 630 } : TimeSlot).stop :=
  (create_appointment_recheck dbOne "conv1" { start := 600, stop := 630 }
    "revisión" "apt9" "cli9" "pet9" 0 convOne (by decide)).2 (by decide)

/-- C9: a completed surgery appointment gets exactly 4 follow-ups, scheduled
at the appointment end plus the protocol delays, hence at strictly
increasing times, and all persisted; an unknown procedure type falls back to
the generic consultation protocol. -/
theorem schedule_follow_ups_surgery (db : DB) (appointment_id : String)
    (mk_id : Nat → String) (now : Int) (appointment : Appointment)
    (happt : get_appointment db appointment_id = some appointment) :
    (∃ fus db2,
      schedule_follow_ups db appointment_id "surgery" mk_id now =
        some (fus, db2) ∧
      fus.length = 4 ∧
      fus.map (fun f => f.scheduled_at) =
        [appointment.end_time + 24 * 60, appointment.end_time + 48 * 60,
         appointment.end_time + 72 * 60, appointment.end_time + 168 * 60] ∧
      fus.Pairwise (fun a b => a.scheduled_at < b.scheduled_at) ∧
      db2.follow_ups = db.follow_ups ++ fus) ∧
    (∀ procedure_type, FOLLOW_UP_PROTOCOLS.lookup procedure_type = none →
      schedule_follow_ups db appointment_id procedure_type mk_id now =
        schedule_follow_ups db appointment_id "consultation" mk_id now) := by
  constructor
  · simp only [schedule_follow_ups, happt]
    refine ⟨_, _, rfl, rfl, rfl, ?_, rfl⟩
    refine List.pairwise_map.mp ?_
    show List.Pairwise (fun a b : Int => a < b)
      [appointment.end_time + 24 * 60, appointment.end_time + 48 * 60,
       appointment.end_time + 72 * 60, appointment.end_time + 168 * 60]
    simp only [List.pairwise_cons, List.mem_cons, List.not_mem_nil, or_false]
    refine ⟨fun b hb => ?_, fun b hb => ?_, fun b hb => ?_,
      fun b hb => hb.elim, List.Pairwise.nil⟩
    · rcases hb with rfl | rfl | rfl <;> omega
    · rcases hb with rfl | rfl <;> omega
    · rcases hb with rfl
      omega
  · intro procedure_type ht
    simp only [schedule_follow_ups, happt, ht]
    rfl

/-- Witness for C9 on the fixture surgery appointment. -/
theorem schedule_follow_ups_surgery_witness :
    ∃ fus db2,
      schedule_follow_ups dbSurgery "apt1" "surgery" (fun _ => "fu") 0 =
        some (fus, db2) ∧
      fus.length = 4 ∧
      fus.map (fun f => f.scheduled_at) =
        [aptOne.end_time + 24 * 60, aptOne.end_time + 48 * 60,
         aptOne.end_time + 72 * 60, aptOne.end_time + 168 * 60] ∧
      fus.Pairwise (fun a b => a.scheduled_at < b.scheduled_at) ∧
      db2.follow_ups = dbSurgery.follow_ups ++ fus :=
  (schedule_follow_ups_surgery dbSurgery "apt1" (fun _ => "fu") 0 aptOne
    (by decide)).1

theorem gen_slots_sound (current close duration : Int) (s : TimeSlot)
    (h : s ∈ gen_slots current close duration) :
    current ≤ s.start ∧ s.stop = s.start + duration ∧ s.stop ≤ close ∧
      (s.start - current) % 30 = 0 := by
  induction current, close, duration using gen_slots.induct with
  | case1 current close duration hc ih =>
    rw [gen_slots, if_pos hc] at h
    rcases List.mem_cons.mp h with rfl | hmem
    · exact ⟨le_refl _, rfl, hc, by simp⟩
    · obtain ⟨h1, h2, h3, h4⟩ := ih hmem
      exact ⟨by omega, h2, h3, by omega⟩
  | case2 current close duration hc =>
    rw [gen_slots, if_neg hc] at h
    cases h

theorem gen_slots_pairwise (current close duration : Int) :
    (gen_slots current close duration).Pairwise (fun a b => a.start < b.start) := by
  induction current, close, duration using gen_slots.induct with
  | case1 current close duration hc ih =>
    rw [gen_slots, if_pos hc]
    refine List.pairwise_cons.mpr ⟨fun b hb => ?_, ih⟩
    have h1 := (gen_slots_sound (current + 30) close duration b hb).1
    show current < b.start
    omega
  | case2 current close duration hc =>
    rw [gen_slots, if_neg hc]
    exact List.Pairwise.nil

/-- C6: the available-slot list holds at most 10 slots, ordered earliest
first; every slot lies on the 30-minute grid inside the open hours of the
weekday and spans the requested duration; and no slot overlaps a stored
non-cancelled appointment of the clinic once the symmetric 5-minute buffer
is applied. -/
theorem get_available_slots_spec (clinic : Clinic) (db : DB) (date : PyDate)
    (duration : Int) :
    (get_available_slots clinic db date duration).length ≤ 10 ∧
    (get_available_slots clinic db date duration).Pairwise
      (fun a b => a.start < b.start) ∧
    ∀ s ∈ get_available_slots clinic db date duration,
      (∃ hours, clinic.business_hours.lookup date.weekday = some hours ∧
        hours.is_open = true ∧
        date.base + hours.open_time ≤ s.start ∧
        s.stop ≤ date.base + hours.close_time ∧
        s.stop = s.start + duration ∧
        (s.start - (date.base + hours.open_time)) % 30 = 0) ∧
      ∀ apt ∈ db.appointments, apt.clinic_id = clinic.id →
        apt.status ≠ "cancelled" →
        ¬(apt.start_time < s.stop + 5 ∧ apt.end_time > s.start - 5) := by
  cases hl : clinic.business_hours.lookup date.weekday with
  | none => simp [get_available_slots, hl]
  | some hours =>
    by_cases hop : hours.is_open = true
    · simp only [get_available_slots, hl, hop, Bool.not_true,
        Bool.false_eq_true, if_false]
      refine ⟨List.length_take_le _ _, ?_, ?_⟩
      · exact List.Pairwise.sublist (List.take_sublist _ _)
          ((gen_slots_pairwise _ _ _).filter _)
      · intro s hs
        have hs1 := List.take_subset _ _ hs
        obtain ⟨hmem, hP⟩ := List.mem_filter.mp hs1
        obtain ⟨hg1, hg2, hg3, hg4⟩ := gen_slots_sound _ _ _ s hmem
        constructor
        · exact ⟨hours, rfl, hop, hg1, hg3, hg2, hg4⟩
        · intro apt hapt hclin hstatus hover
          have hmemf : apt ∈ get_appointments_for_date db clinic.id date := by
            unfold get_appointments_for_date
            refine List.mem_filter.mpr ⟨hapt, ?_⟩
            simp [hclin]
          rw [Bool.not_eq_true', List.any_eq_false] at hP
          apply hP apt hmemf
          simp only [Bool.and_eq_true, bne_iff_ne, decide_eq_true_eq]
          exact ⟨⟨hstatus, hover.1⟩, hover.2⟩
    · rw [Bool.not_eq_true] at hop
      simp [get_available_slots, hl, hop]

end VetAssist
